import Mathlib

/-!
Verification of the onchainbot mirror-trading core against its specification.

The definitions below are a shallow embedding of the Python source:
Decimal values become rationals, timestamps become integers, the position
dictionary becomes an association list with unique keys, raising becomes
an Except value threaded together with the (unchanged) state, and network
oracles (quotes, bundle submission outcomes, block data) become explicit
function parameters.
-/

/-- Mirrors the TradeEvent pydantic model in core/positions.py. -/
structure TradeEvent where
  wallet : String
  token_in : String
  token_out : String
  amount_in : ℚ
  amount_out_min : ℚ
  tx_hash : String
  timestamp : ℤ
deriving DecidableEq

/-- Mirrors the Position pydantic model in core/positions.py. -/
structure Position where
  wallet : String
  token : String
  size : ℚ
  avg_price : ℚ
  opened_at : ℤ
  last_update : ℤ
  origin_tx : String
deriving DecidableEq

/-- Composite key of the position book: (wallet, token). -/
abbrev Key := String × String

/-- The position book: the dict positions of core/positions.py as an
association list (a Python dict never holds duplicate keys). -/
abbrev Book := List (Key × Position)

/-- Dict lookup, positions.get(key). -/
def lookupPos : Book → Key → Option Position
  | [], _ => none
  | (k1, p) :: rest, k => if k = k1 then some p else lookupPos rest k

/-- Dict assignment, positions[key] = pos: replace the binding when the key
is present, append it otherwise. -/
def setPos : Book → Key → Position → Book
  | [], k, q => [(k, q)]
  | (k1, p) :: rest, k, q =>
    if k = k1 then (k, q) :: rest else (k1, p) :: setPos rest k q

/-- Dict removal, positions.pop(key): drop the first binding of the key. -/
def removePos : Book → Key → Book
  | [], _ => []
  | (k1, p) :: rest, k => if k = k1 then rest else (k1, p) :: removePos rest k

/-- Checked Decimal division: Decimal raises on a zero denominator. -/
def qdiv (a b : ℚ) : Except String ℚ :=
  if b = 0 then Except.error "division by zero" else Except.ok (a / b)

/-- True when an Except value carries a result rather than an error. -/
def exOk {ε α : Type} : Except ε α → Bool
  | Except.ok _ => true
  | Except.error _ => false

/-- The async open operation of core/positions.py: fails when the key
(wallet, token_out) is already mapped, otherwise computes
size = amount_out_min times mirror_ratio and
avg_price = amount_in / amount_out_min and stores the new record.
State is returned alongside the outcome; a failing call leaves it as is. -/
def openPos (b : Book) (e : TradeEvent) (mirror_ratio : ℚ) :
    Book × Except String Position :=
  let key : Key := (e.wallet, e.token_out)
  match lookupPos b key with
  | some _ => (b, Except.error "position already open")
  | none =>
    let size := e.amount_out_min * mirror_ratio
    match qdiv e.amount_in e.amount_out_min with
    | Except.error m => (b, Except.error m)
    | Except.ok avg_price =>
      let pos : Position :=
        { wallet := e.wallet, token := e.token_out, size := size,
          avg_price := avg_price, opened_at := e.timestamp,
          last_update := e.timestamp, origin_tx := e.tx_hash }
      (setPos b key pos, Except.ok pos)

/-- The async update operation of core/positions.py: fails when the key is
absent, otherwise folds the event into the stored record with a
volume-weighted average price. The two Decimal divisions happen before any
field assignment, so a failing call leaves the book as is. -/
def updatePos (b : Book) (e : TradeEvent) : Book × Except String Unit :=
  let key : Key := (e.wallet, e.token_out)
  match lookupPos b key with
  | none => (b, Except.error "no open position")
  | some pos =>
    let new_qty := e.amount_out_min
    match qdiv e.amount_in e.amount_out_min with
    | Except.error m => (b, Except.error m)
    | Except.ok new_price =>
      let total_qty := pos.size + new_qty
      match qdiv (pos.avg_price * pos.size + new_price * new_qty) total_qty with
      | Except.error m => (b, Except.error m)
      | Except.ok avg =>
        (setPos b key
          { pos with
              avg_price := avg
              size := total_qty
              last_update := e.timestamp },
         Except.ok ())

/-- The async close operation of core/positions.py: positions.pop removes
and returns the record, failing when the key is absent. -/
def closePos (b : Book) (wallet token : String) :
    Book × Except String Position :=
  let key : Key := (wallet, token)
  match lookupPos b key with
  | none => (b, Except.error "no open position to close")
  | some pos => (removePos b key, Except.ok pos)

-- Association-list helper lemmas.

theorem lookupPos_setPos (b : Book) (k : Key) (q : Position) :
    lookupPos (setPos b k q) k = some q := by
  induction b with
  | nil => simp [setPos, lookupPos]
  | cons hd tl ih =>
    obtain ⟨k1, p⟩ := hd
    by_cases h : k = k1
    · simp [setPos, lookupPos, h]
    · simp [setPos, lookupPos, h, ih]

theorem lookupPos_eq_none_of_not_mem (b : Book) (k : Key)
    (h : k ∉ b.map Prod.fst) : lookupPos b k = none := by
  induction b with
  | nil => simp [lookupPos]
  | cons hd tl ih =>
    obtain ⟨k1, p⟩ := hd
    simp only [List.map_cons, List.mem_cons] at h
    push_neg at h
    simp [lookupPos, h.1, ih h.2]

theorem lookupPos_mem (b : Book) (k : Key) (p : Position)
    (h : lookupPos b k = some p) : (k, p) ∈ b := by
  induction b with
  | nil => simp [lookupPos] at h
  | cons hd tl ih =>
    obtain ⟨k1, q⟩ := hd
    by_cases hk : k = k1
    · simp only [lookupPos, if_pos hk] at h
      subst hk
      simp [← Option.some_inj.mp h]
    · simp only [lookupPos, if_neg hk] at h
      exact List.mem_cons_of_mem _ (ih h)

theorem lookupPos_removePos (b : Book) (k : Key)
    (hnd : (b.map Prod.fst).Nodup) : lookupPos (removePos b k) k = none := by
  induction b with
  | nil => simp [removePos, lookupPos]
  | cons hd tl ih =>
    obtain ⟨k1, p⟩ := hd
    simp only [List.map_cons, List.nodup_cons] at hnd
    by_cases h : k = k1
    · subst h
      simp only [removePos, if_pos rfl]
      exact lookupPos_eq_none_of_not_mem tl _ hnd.1
    · simp [removePos, lookupPos, h, ih hnd.2]

/-- Mirrors should_exit in core/risk.py. The Decimal division is threaded as
an explicit oracle divq so that a numerically failing division (the
InvalidOperation branch of the source, which is swallowed) is expressible;
a failing division leaves the drawdown branch false and the time-to-live
branch is still evaluated, exactly as in the source. -/
def should_exit (divq : ℚ → ℚ → Option ℚ) (now : ℚ) (ttl : ℤ)
    (p : Position) (wallet_balance : ℚ) : Bool :=
  let drawdown : Bool :=
    if 0 < p.size then
      match divq wallet_balance p.size with
      | some r => decide (r ≤ 1 / 10)
      | none => false
    else false
  if drawdown then true
  else decide ((ttl : ℚ) < now - (p.opened_at : ℚ))

/-- Exact rational division as the division oracle: it fails precisely on a
zero denominator, the case in which Decimal division raises. -/
def divqExact : ℚ → ℚ → Option ℚ :=
  fun a b => if b = 0 then none else some (a / b)

/-- Python int() applied to a Decimal: truncation toward zero. -/
def pyInt (q : ℚ) : ℤ :=
  if 0 ≤ q then ⌊q⌋ else ⌈q⌉

-- Event bus (ingestion/sol.py).

/-- The drop loop of process_and_enqueue in ingestion/sol.py:
while q.qsize() is strictly greater than maxSize, pop the oldest item and
count one dropped-event warning. -/
def dropOldest {α : Type} (maxSize : ℕ) : List α → ℕ → List α × ℕ
  | [], drops => ([], drops)
  | x :: rest, drops =>
    if maxSize < rest.length + 1 then dropOldest maxSize rest (drops + 1)
    else (x :: rest, drops)

/-- Mirrors process_and_enqueue in ingestion/sol.py: run the drop loop,
then put the new event (the underlying asyncio.Queue is unbounded, so the
put never times out). -/
def process_and_enqueue {α : Type} (maxSize : ℕ) (q : List α) (drops : ℕ)
    (evt : α) : List α × ℕ :=
  let r := dropOldest maxSize q drops
  (r.1 ++ [evt], r.2)

/-- A producer-only run of the bus: enqueue each event in order into an
initially empty queue with a zero drop counter. -/
def enqueueAll {α : Type} (maxSize : ℕ) (evts : List α) : List α × ℕ :=
  evts.foldl (fun s e => process_and_enqueue maxSize s.1 s.2 e) ([], 0)

-- EVM execution engine (exec/eth.py).

/-- The transaction dict built by mirror_buy and mirror_sell in
exec/eth.py; maxFeePerGas is absent until gas escalation adds it. -/
structure EthTx where
  toAddr : String
  dataField : String
  value : ℕ
  gas : ℕ
  gasPrice : ℕ
  chainId : ℕ
  maxFeePerGas : Option ℕ
deriving DecidableEq

/-- One signed-and-submitted bundle: the transaction sent and the block it
targeted. -/
structure BundleAttempt where
  tx : EthTx
  targetBlock : ℕ
deriving DecidableEq

/-- The gas-escalation branch of send_bundle in exec/eth.py: a truthy
baseFeePerGas on the latest block sets maxFeePerGas to twice the base fee,
otherwise gasPrice is doubled. -/
def escalate (baseFee : Option ℕ) (tx : EthTx) : EthTx :=
  match baseFee with
  | some bfee =>
    if bfee = 0 then { tx with gasPrice := tx.gasPrice * 2 }
    else { tx with maxFeePerGas := some (bfee * 2) }
  | none => { tx with gasPrice := tx.gasPrice * 2 }

/-- Mirrors send_bundle in exec/eth.py: the target block is the current
block number plus one, computed once; the first submission failure
escalates gas, re-signs and resubmits once toward the same target; a
second failure propagates. The oracle ok gives each submission outcome.
The returned list records every attempt in order. -/
def send_bundle (ok : ℕ → Bool) (blockNumber : ℕ) (baseFee : Option ℕ)
    (tx : EthTx) : List BundleAttempt × Except String String :=
  let target := blockNumber + 1
  if ok 0 then ([⟨tx, target⟩], Except.ok "txhash")
  else
    let tx2 := escalate baseFee tx
    ([⟨tx, target⟩, ⟨tx2, target⟩],
     if ok 1 then Except.ok "txhash" else Except.error "bundle failed")

/-- The fields of the 0x quote response that exec/eth.py reads, together
with the price-impact figure the API reports (which exec/eth.py never
consults). -/
structure EvmQuote where
  guaranteedPrice : Option ℚ
  price : ℚ
  toAddr : String
  dataField : String
  value : ℕ
  gas : ℕ
  gasPrice : ℕ
  chainId : ℕ
  priceImpactPct : ℚ
deriving DecidableEq

/-- Failure modes of a mirror execution call. -/
inductive ExecError where
  | slippage (impact : ℚ)
  | submit
deriving DecidableEq

/-- The sell amount of mirror_buy in exec/eth.py:
int(event.amount_in * mirror_ratio). -/
def evm_buy_sell_amount (e : TradeEvent) (mirror_ratio : ℚ) : ℤ :=
  pyInt (e.amount_in * mirror_ratio)

/-- The sell amount of mirror_sell in exec/eth.py: int(position.size). -/
def evm_sell_sell_amount (p : Position) : ℤ :=
  pyInt p.size

/-- Mirrors mirror_buy in exec/eth.py: quote the scaled sell amount, take
guaranteedPrice when present else price, build the transaction and hand it
to send_bundle. No price-impact check appears anywhere on this path. -/
def evm_mirror_buy (e : TradeEvent) (mirror_ratio : ℚ)
    (getQuote : ℤ → EvmQuote) (ok : ℕ → Bool) (blockNumber : ℕ)
    (baseFee : Option ℕ) : List BundleAttempt × Except ExecError (String × ℚ) :=
  let sell_amount := evm_buy_sell_amount e mirror_ratio
  let quote := getQuote sell_amount
  let price := quote.guaranteedPrice.getD quote.price
  let tx : EthTx :=
    { toAddr := quote.toAddr, dataField := quote.dataField,
      value := quote.value, gas := quote.gas, gasPrice := quote.gasPrice,
      chainId := quote.chainId, maxFeePerGas := none }
  match send_bundle ok blockNumber baseFee tx with
  | (attempts, Except.ok h) => (attempts, Except.ok (h, price))
  | (attempts, Except.error _) => (attempts, Except.error ExecError.submit)

/-- Mirrors mirror_sell in exec/eth.py: identical shape to the buy path
with the position size as the sell amount. -/
def evm_mirror_sell (p : Position) (getQuote : ℤ → EvmQuote)
    (ok : ℕ → Bool) (blockNumber : ℕ) (baseFee : Option ℕ) :
    List BundleAttempt × Except ExecError (String × ℚ) :=
  let sell_amount := evm_sell_sell_amount p
  let quote := getQuote sell_amount
  let price := quote.guaranteedPrice.getD quote.price
  let tx : EthTx :=
    { toAddr := quote.toAddr, dataField := quote.dataField,
      value := quote.value, gas := quote.gas, gasPrice := quote.gasPrice,
      chainId := quote.chainId, maxFeePerGas := none }
  match send_bundle ok blockNumber baseFee tx with
  | (attempts, Except.ok h) => (attempts, Except.ok (h, price))
  | (attempts, Except.error _) => (attempts, Except.error ExecError.submit)

-- Solana-like execution engine (src/onchainbot/exec/sol.py).

/-- The field of the Jupiter quote response that drives the slippage
check. -/
structure SolQuote where
  priceImpactPct : ℚ
deriving DecidableEq

/-- The fields of the Jupiter swap response that determine the returned
fill price. -/
structure SolSwapData where
  outAmount : ℚ
  inAmount : ℚ
deriving DecidableEq

/-- The amount computed by mirror_buy in src/onchainbot/exec/sol.py:
int(event.amount_in * mirror_ratio * 10 ** decimals), the token decimals
coming from the rpc token-supply call. -/
def sol_buy_amount (e : TradeEvent) (mirror_ratio : ℚ) (decimals : ℕ) : ℤ :=
  pyInt (e.amount_in * mirror_ratio * (10 : ℚ) ^ decimals)

/-- The bundle-send loop of mirror_buy in src/onchainbot/exec/sol.py:
walk the priority-fee ladder; a successful post returns at once, a failed
post re-raises when the next attempt index would reach MAX_RETRIES (3) and
otherwise sleeps and continues. Returns the fees attempted in order and
whether any attempt succeeded. -/
def solLoop (ok : ℕ → Bool) (maxRetries : ℕ) :
    List ℕ → ℕ → List ℕ × Bool
  | [], _ => ([], false)
  | fee :: rest, idx =>
    if ok idx then ([fee], true)
    else if maxRetries ≤ idx + 1 then ([fee], false)
    else
      let r := solLoop ok maxRetries rest (idx + 1)
      (fee :: r.1, r.2)

/-- Mirrors mirror_buy in src/onchainbot/exec/sol.py: scale the input
amount by the mirror ratio and the token decimals, quote it, reject with
SlippageExceeded when the reported price impact exceeds 0.4 before any
signing or bundle submission, otherwise submit along the priority-fee
ladder [50000, 100000, 200000] and price the fill as outAmount/inAmount
from the swap response. -/
def sol_mirror_buy (e : TradeEvent) (mirror_ratio : ℚ) (decimals : ℕ)
    (getQuote : ℤ → SolQuote) (swap : SolSwapData) (ok : ℕ → Bool) :
    List ℕ × Except ExecError ℚ :=
  let amount := sol_buy_amount e mirror_ratio decimals
  let quote := getQuote amount
  if quote.priceImpactPct > 2 / 5 then
    ([], Except.error (ExecError.slippage quote.priceImpactPct))
  else
    let price := swap.outAmount / swap.inAmount
    let r := solLoop ok 3 [50000, 100000, 200000] 0
    (r.1, if r.2 then Except.ok price else Except.error ExecError.submit)

/-- The synthetic TradeEvent that mirror_sell in
src/onchainbot/exec/sol.py builds from a position before delegating to
mirror_buy: the position size becomes amount_in (and amount_out_min) and
the held token is swapped into SOL. -/
def sol_mirror_sell_event (p : Position) (now : ℤ) : TradeEvent :=
  { wallet := p.wallet, token_in := p.token, token_out := "SOL",
    amount_in := p.size, amount_out_min := p.size,
    tx_hash := p.origin_tx, timestamp := now }

/-- Mirrors mirror_sell in src/onchainbot/exec/sol.py: delegate to
mirror_buy with mirror ratio 1 on the synthetic event. -/
def sol_mirror_sell (p : Position) (now : ℤ) (decimals : ℕ)
    (getQuote : ℤ → SolQuote) (swap : SolSwapData) (ok : ℕ → Bool) :
    List ℕ × Except ExecError ℚ :=
  sol_mirror_buy (sol_mirror_sell_event p now) 1 decimals getQuote swap ok

/-- The amount that a Solana-like mirror_sell ends up submitting: the
amount mirror_buy computes on the synthetic event with ratio 1, in which
the decimals scaling is applied again to the stored position size. -/
def sol_sell_amount (p : Position) (decimals : ℕ) : ℤ :=
  sol_buy_amount (sol_mirror_sell_event p 0) 1 decimals

-- Feed subscribers (ingestion/sol.py and ingestion/eth.py).

/-- How one iteration of a Solana-like subscriber loop ends: a failure
before the subscription request went out, a failure after it succeeded
(the message loop or a later send raised), or a clean close of the
message stream. -/
inductive FeedOutcome where
  | failBeforeSub
  | failAfterSub
  | cleanClose
deriving DecidableEq

/-- One iteration of the while-True loop of subscribe_helius in
ingestion/sol.py, as a function of the backoff carried into the iteration:
the optional sleep performed and the backoff carried out. A successful
subscription resets the backoff to 1 before any later failure sleeps. -/
def subscribe_helius_step (backoff : ℕ) (o : FeedOutcome) : Option ℕ × ℕ :=
  match o with
  | FeedOutcome.failBeforeSub => (some backoff, min (backoff * 2) 30)
  | FeedOutcome.failAfterSub => (some 1, min (1 * 2) 30)
  | FeedOutcome.cleanClose => (none, 1)

/-- One iteration of the while-True loop of subscribe_jito in
ingestion/sol.py; its body is identical to the helius one. -/
def subscribe_jito_step (backoff : ℕ) (o : FeedOutcome) : Option ℕ × ℕ :=
  match o with
  | FeedOutcome.failBeforeSub => (some backoff, min (backoff * 2) 30)
  | FeedOutcome.failAfterSub => (some 1, min (1 * 2) 30)
  | FeedOutcome.cleanClose => (none, 1)

/-- Run a subscriber loop over a list of iteration outcomes from a given
backoff, collecting the sleeps performed in order and the final backoff. -/
def runFeed (stp : ℕ → FeedOutcome → Option ℕ × ℕ) :
    List FeedOutcome → ℕ → List ℕ × ℕ
  | [], backoff => ([], backoff)
  | o :: rest, backoff =>
    ((match (stp backoff o).1 with
      | some d => d :: (runFeed stp rest (stp backoff o).2).1
      | none => (runFeed stp rest (stp backoff o).2).1),
     (runFeed stp rest (stp backoff o).2).2)

/-- The subscribe_helius task: backoff starts at 1. -/
def subscribe_helius_run (outcomes : List FeedOutcome) : List ℕ × ℕ :=
  runFeed subscribe_helius_step outcomes 1

/-- The subscribe_jito task: backoff starts at 1. -/
def subscribe_jito_run (outcomes : List FeedOutcome) : List ℕ × ℕ :=
  runFeed subscribe_jito_step outcomes 1

/-- The observable steps of subscribe_and_process in ingestion/eth.py. -/
inductive EthAction where
  | connect
  | sendSub
  | processLoop
  | sleepBackoff
  | closeRedis
deriving DecidableEq

/-- Mirrors the control flow of subscribe_and_process in ingestion/eth.py:
a single try block with no reconnection loop. When the connection opens,
the subscription is sent and the message loop runs until it raises; the
exception is logged, the redis client is closed and the coroutine returns.
When the connection fails, the exception is logged, the redis client is
closed and the coroutine returns. No sleep and no second connection
attempt occur in either case. -/
def subscribe_and_process_trace (connectOk : Bool) : List EthAction :=
  if connectOk then
    [EthAction.connect, EthAction.sendSub, EthAction.processLoop,
     EthAction.closeRedis]
  else [EthAction.connect, EthAction.closeRedis]

-- Concrete sample values used by witnesses and counterexamples.

/-- The opening event of the worked example in the specification:
amount_in 100, amount_out_min 10. -/
def sampleEvent : TradeEvent :=
  { wallet := "alice", token_in := "tin", token_out := "tout",
    amount_in := 100, amount_out_min := 10, tx_hash := "tx1",
    timestamp := 1000 }

/-- The position that opening sampleEvent with mirror ratio one half
produces: size 5, average price 10. -/
def samplePosition : Position :=
  { wallet := "alice", token := "tout", size := 5, avg_price := 10,
    opened_at := 1000, last_update := 1000, origin_tx := "tx1" }

/-- A one-entry book holding samplePosition under its key. -/
def sampleBook : Book := [(("alice", "tout"), samplePosition)]

/-- The follow-up event of the worked example: amount_in 60,
amount_out_min 5. -/
def sampleEvent2 : TradeEvent :=
  { wallet := "alice", token_in := "tin", token_out := "tout",
    amount_in := 60, amount_out_min := 5, tx_hash := "tx2",
    timestamp := 2000 }

/-- A concrete transaction dict as mirror_buy builds it. -/
def sampleTx : EthTx :=
  { toAddr := "0xrouter", dataField := "0xcalldata", value := 0,
    gas := 210000, gasPrice := 10, chainId := 1, maxFeePerGas := none }

/-- A concrete 0x quote whose reported price impact is 0.5. -/
def sampleEvmQuote : EvmQuote :=
  { guaranteedPrice := none, price := 7, toAddr := "0xrouter",
    dataField := "0xcalldata", value := 0, gas := 210000, gasPrice := 10,
    chainId := 1, priceImpactPct := 1 / 2 }

/-- C1: for every position p in the book and every trade event e with the
same key (wallet, token_out) and e.amount_out_min > 0, after update(e) the
stored size equals old_size + e.amount_out_min and the stored avg_price
equals (old_avg_price * old_size + (e.amount_in / e.amount_out_min) *
e.amount_out_min) / (old_size + e.amount_out_min). -/
theorem C1_update_size_avg (b : Book) (e : TradeEvent) (p : Position)
    (hk : lookupPos b (e.wallet, e.token_out) = some p)
    (hmin : 0 < e.amount_out_min) (hsz : 0 ≤ p.size) :
    ∃ p2,
      (updatePos b e).2 = Except.ok () ∧
      lookupPos (updatePos b e).1 (e.wallet, e.token_out) = some p2 ∧
      p2.size = p.size + e.amount_out_min ∧
      p2.avg_price =
        (p.avg_price * p.size +
            (e.amount_in / e.amount_out_min) * e.amount_out_min) /
          (p.size + e.amount_out_min) := by
  have h1 : e.amount_out_min ≠ 0 := ne_of_gt hmin
  have h2 : p.size + e.amount_out_min ≠ 0 := ne_of_gt (by linarith)
  simp only [updatePos, hk, qdiv, if_neg h1, if_neg h2]
  exact ⟨_, trivial, lookupPos_setPos _ _ _, rfl, rfl⟩

/-- C1 witness: the worked example of the specification. Opening with
amount_in 100, amount_out_min 10 and mirror ratio one half gives the book
sampleBook with size 5 and average price 10; updating with amount_in 60,
amount_out_min 5 yields size 10 and average price 11. -/
theorem C1_witness :
    ∃ p2,
      (updatePos sampleBook sampleEvent2).2 = Except.ok () ∧
      lookupPos (updatePos sampleBook sampleEvent2).1 ("alice", "tout") =
        some p2 ∧
      p2.size = 10 ∧ p2.avg_price = 11 := by
  obtain ⟨p2, h1, h2, h3, h4⟩ :=
    C1_update_size_avg sampleBook sampleEvent2 samplePosition (by decide)
      (by norm_num [sampleEvent2]) (by norm_num [samplePosition])
  refine ⟨p2, h1, h2, ?_, ?_⟩
  · rw [h3]; norm_num [samplePosition, sampleEvent2]
  · rw [h4]; norm_num [samplePosition, sampleEvent2]

/-- C2: for every trade event e with amount_out_min > 0 and every mirror
ratio, if no position exists for (e.wallet, e.token_out) then open stores
and returns a position with size = e.amount_out_min * mirror_ratio,
avg_price = e.amount_in / e.amount_out_min, opened_at = last_update =
e.timestamp and origin_tx = e.tx_hash. -/
theorem C2_open_fields (b : Book) (e : TradeEvent) (r : ℚ)
    (hk : lookupPos b (e.wallet, e.token_out) = none)
    (hmin : 0 < e.amount_out_min) :
    ∃ p,
      openPos b e r = (setPos b (e.wallet, e.token_out) p, Except.ok p) ∧
      lookupPos (openPos b e r).1 (e.wallet, e.token_out) = some p ∧
      p.size = e.amount_out_min * r ∧
      p.avg_price = e.amount_in / e.amount_out_min ∧
      p.opened_at = e.timestamp ∧
      p.last_update = e.timestamp ∧
      p.origin_tx = e.tx_hash := by
  have h1 : e.amount_out_min ≠ 0 := ne_of_gt hmin
  simp only [openPos, qdiv, hk, if_neg h1]
  exact ⟨_, rfl, lookupPos_setPos _ _ _, rfl, rfl, rfl, rfl, rfl⟩

/-- C2 witness: opening sampleEvent on an empty book with mirror ratio one
half stores a position of size 5 and average price 10 under the key. -/
theorem C2_witness :
    ∃ p,
      openPos ([] : Book) sampleEvent (1 / 2) =
        ([(("alice", "tout"), p)], Except.ok p) ∧
      p.size = 5 ∧ p.avg_price = 10 ∧ p.opened_at = 1000 ∧
      p.origin_tx = "tx1" := by
  obtain ⟨p, h1, _, h3, h4, h5, _, h7⟩ :=
    C2_open_fields [] sampleEvent (1 / 2) rfl (by norm_num [sampleEvent])
  refine ⟨p, h1, ?_, ?_, h5, h7⟩
  · rw [h3]; norm_num [sampleEvent]
  · rw [h4]; norm_num [sampleEvent]

/-- C3: open fails exactly when the key (e.wallet, e.token_out) is already
present; update and close fail exactly when the key is absent; and a
successful close removes the record for the key and returns it. Stated for
events satisfying the data-model constraint amount_out_min > 0 and books
whose stored sizes are nonnegative and whose keys are unique, as a Python
dict guarantees. -/
theorem C3_failure_conditions (b : Book) (e : TradeEvent) (r : ℚ)
    (w t : String)
    (hmin : 0 < e.amount_out_min)
    (hsz : ∀ kp ∈ b, 0 ≤ (Prod.snd kp).size)
    (hnd : (b.map Prod.fst).Nodup) :
    (exOk (openPos b e r).2 = true ↔
      lookupPos b (e.wallet, e.token_out) = none) ∧
    (exOk (updatePos b e).2 = true ↔
      lookupPos b (e.wallet, e.token_out) ≠ none) ∧
    (exOk (closePos b w t).2 = true ↔ lookupPos b (w, t) ≠ none) ∧
    (∀ p, lookupPos b (w, t) = some p →
      closePos b w t = (removePos b (w, t), Except.ok p) ∧
      lookupPos (removePos b (w, t)) (w, t) = none) := by
  have h1 : e.amount_out_min ≠ 0 := ne_of_gt hmin
  refine ⟨?_, ?_, ?_, ?_⟩
  · cases hcase : lookupPos b (e.wallet, e.token_out) with
    | none => simp [openPos, hcase, exOk, qdiv, if_neg h1]
    | some p => simp [openPos, hcase, exOk]
  · cases hcase : lookupPos b (e.wallet, e.token_out) with
    | none => simp [updatePos, hcase, exOk]
    | some p =>
      have hps : 0 ≤ p.size := hsz _ (lookupPos_mem b _ p hcase)
      have h2 : p.size + e.amount_out_min ≠ 0 := ne_of_gt (by linarith)
      simp [updatePos, hcase, exOk, qdiv, if_neg h1, if_neg h2]
  · cases hcase : lookupPos b (w, t) with
    | none => simp [closePos, hcase, exOk]
    | some p => simp [closePos, hcase, exOk]
  · intro p hp
    exact ⟨by simp [closePos, hp], lookupPos_removePos b _ hnd⟩

/-- C3 witness: on the one-entry book, a second open for the same key
fails, update succeeds, close removes and returns the stored record, and
close for an absent key fails. -/
theorem C3_witness :
    exOk (openPos sampleBook sampleEvent2 1).2 = false ∧
    exOk (updatePos sampleBook sampleEvent2).2 = true ∧
    closePos sampleBook "alice" "tout" = ([], Except.ok samplePosition) ∧
    exOk (closePos sampleBook "bob" "tout").2 = false := by
  obtain ⟨h1, h2, _, h4⟩ :=
    C3_failure_conditions sampleBook sampleEvent2 1 "alice" "tout"
      (by norm_num [sampleEvent2]) (by decide) (by decide)
  obtain ⟨_, _, g3, _⟩ :=
    C3_failure_conditions sampleBook sampleEvent2 1 "bob" "tout"
      (by norm_num [sampleEvent2]) (by decide) (by decide)
  refine ⟨?_, h2.mpr (by decide), ?_, ?_⟩
  · cases hb : exOk (openPos sampleBook sampleEvent2 1).2 with
    | false => rfl
    | true => exact absurd (h1.mp hb) (by decide)
  · have h5 := (h4 samplePosition (by decide)).1
    have h6 : removePos sampleBook ("alice", "tout") = [] := by decide
    rw [h6] at h5
    exact h5
  · cases hb : exOk (closePos sampleBook "bob" "tout").2 with
    | false => rfl
    | true => exact absurd (g3.mp hb) (by decide)

/-- C10: a failing position-book operation is atomic. When open fails
because the key exists, or update or close fails because the key is
absent, the returned book is exactly the book passed in; in the source the
raise happens before any dict or field mutation. -/
theorem C10_failure_atomicity (b : Book) (e : TradeEvent) (r : ℚ)
    (w t : String) :
    (∀ p, lookupPos b (e.wallet, e.token_out) = some p →
      (openPos b e r).1 = b ∧ exOk (openPos b e r).2 = false) ∧
    (lookupPos b (e.wallet, e.token_out) = none →
      (updatePos b e).1 = b ∧ exOk (updatePos b e).2 = false) ∧
    (lookupPos b (w, t) = none →
      (closePos b w t).1 = b ∧ exOk (closePos b w t).2 = false) := by
  refine ⟨?_, ?_, ?_⟩
  · intro p hp
    constructor <;> simp [openPos, hp, exOk]
  · intro hp
    constructor <;> simp [updatePos, hp, exOk]
  · intro hp
    constructor <;> simp [closePos, hp, exOk]

/-- C10 witness: a duplicate open on the one-entry book, an update on the
empty book and a close on the empty book each fail and leave the book
unchanged. -/
theorem C10_witness :
    (openPos sampleBook sampleEvent2 1).1 = sampleBook ∧
    (updatePos ([] : Book) sampleEvent2).1 = [] ∧
    (closePos ([] : Book) "alice" "tout").1 = [] := by
  obtain ⟨h1, _, _⟩ :=
    C10_failure_atomicity sampleBook sampleEvent2 1 "alice" "tout"
  obtain ⟨_, h2, h3⟩ :=
    C10_failure_atomicity ([] : Book) sampleEvent2 1 "alice" "tout"
  exact ⟨(h1 samplePosition (by decide)).1, (h2 (by decide)).1,
    (h3 (by decide)).1⟩

/-- C4: should_exit returns true exactly when the drawdown condition
(size positive and balance divided by size at most one tenth) or the
deadline condition (now minus opened_at strictly greater than the TTL)
holds, and when the division oracle fails the drawdown disjunct is treated
as false while the deadline disjunct is still evaluated. -/
theorem C4_should_exit_iff (now : ℚ) (ttl : ℤ) (p : Position) (bal : ℚ) :
    (should_exit divqExact now ttl p bal = true ↔
      ((0 < p.size ∧ bal / p.size ≤ 1 / 10) ∨
        (ttl : ℚ) < now - (p.opened_at : ℚ))) ∧
    (∀ divq : ℚ → ℚ → Option ℚ, divq bal p.size = none →
      should_exit divq now ttl p bal =
        decide ((ttl : ℚ) < now - (p.opened_at : ℚ))) := by
  constructor
  · by_cases hs : 0 < p.size
    · have hne : p.size ≠ 0 := ne_of_gt hs
      simp [should_exit, divqExact, hne, hs]
    · simp [should_exit, hs]
  · intro divq hd
    by_cases hs : 0 < p.size <;> simp [should_exit, hd, hs]

/-- C4 witness: with size 100 and the deadline not passed, balance 10
forces an exit, balance 11 does not, and a failing division leaves only
the deadline branch, which is false here. -/
theorem C4_witness :
    should_exit divqExact 0 86400
      ⟨"w", "t", 100, 1, 0, 0, "tx"⟩ 10 = true ∧
    should_exit divqExact 0 86400
      ⟨"w", "t", 100, 1, 0, 0, "tx"⟩ 11 = false ∧
    should_exit (fun _ _ => none) 0 86400
      ⟨"w", "t", 100, 1, 0, 0, "tx"⟩ 10 = false := by
  refine ⟨?_, ?_, ?_⟩
  · exact (C4_should_exit_iff 0 86400 ⟨"w", "t", 100, 1, 0, 0, "tx"⟩ 10).1.mpr
      (Or.inl (by norm_num))
  · have h := (C4_should_exit_iff 0 86400 ⟨"w", "t", 100, 1, 0, 0, "tx"⟩ 11).1
    cases hb : should_exit divqExact 0 86400
        ⟨"w", "t", 100, 1, 0, 0, "tx"⟩ 11 with
    | false => rfl
    | true =>
      have := h.mp hb
      norm_num at this
  · have h :=
      (C4_should_exit_iff 0 86400 ⟨"w", "t", 100, 1, 0, 0, "tx"⟩ 10).2
        (fun _ _ => none) rfl
    rw [h]
    norm_num

/-- C5: the back-pressure implementation drops the oldest item only while
the queue size strictly exceeds the maximum, so enqueuing A, B, C, D with
maximum size 3 leaves all four items queued with no drop recorded and a
depth of 4; the claimed result, queue B, C, D with one drop, differs. -/
theorem C5_queue_overflow_eval :
    enqueueAll 3 ["A", "B", "C", "D"] = (["A", "B", "C", "D"], 0) ∧
    (enqueueAll 3 ["A", "B", "C", "D"]).1.length = 4 ∧
    enqueueAll 3 ["A", "B", "C", "D"] ≠ (["B", "C", "D"], 1) := by
  refine ⟨by decide, by decide, by decide⟩

/-- C6 counterexample: when every submission fails, send_bundle makes
exactly 2 attempts, not the 3 the claim states, because the source retries
only once inside a single try-except. -/
theorem C6_two_attempts_counterexample :
    (send_bundle (fun _ => false) 100 (some 20000000000) sampleTx).1.length
      = 2 ∧ (2 : ℕ) ≠ 3 := by
  refine ⟨by decide, by decide⟩

/-- C6 amended: on the EVM path at most 2 attempts are made; every attempt
targets the block after the one current at entry; and on a first failure
the transaction is escalated once, with max_fee_per_gas set to twice a
nonzero base fee when the latest block carries one and a doubled gas price
otherwise, then resubmitted for the same target block. -/
theorem C6_amended_retry (ok : ℕ → Bool) (bn : ℕ) (bf : Option ℕ)
    (tx : EthTx) :
    (send_bundle ok bn bf tx).1.length ≤ 2 ∧
    (∀ a ∈ (send_bundle ok bn bf tx).1, a.targetBlock = bn + 1) ∧
    (ok 0 = false →
      (send_bundle ok bn bf tx).1 = [⟨tx, bn + 1⟩, ⟨escalate bf tx, bn + 1⟩] ∧
      ∀ bfee, bf = some bfee → bfee ≠ 0 →
        (escalate bf tx).maxFeePerGas = some (bfee * 2)) := by
  refine ⟨?_, ?_, ?_⟩
  · cases h0 : ok 0 <;> simp [send_bundle, h0]
  · intro a ha
    cases h0 : ok 0 <;> simp [send_bundle, h0] at ha
    · rcases ha with ha | ha <;> simp [ha]
    · simp [ha]
  · intro h0
    refine ⟨by simp [send_bundle, h0], ?_⟩
    intro bfee hbf hne
    subst hbf
    simp [escalate, hne]

/-- C6 amended witness: with every submission failing and a base fee of
20 Gwei (20000000000 wei), the second attempt carries max_fee_per_gas
40 Gwei and both attempts target block 101. -/
theorem C6_amended_witness :
    (send_bundle (fun _ => false) 100 (some 20000000000) sampleTx).1 =
      [⟨sampleTx, 101⟩, ⟨escalate (some 20000000000) sampleTx, 101⟩] ∧
    (escalate (some 20000000000) sampleTx).maxFeePerGas =
      some 40000000000 := by
  obtain ⟨_, _, hesc⟩ :=
    C6_amended_retry (fun _ => false) 100 (some 20000000000) sampleTx
  obtain ⟨hlist, hfee⟩ := hesc rfl
  exact ⟨hlist, by rw [hfee 20000000000 rfl (by norm_num)]⟩

/-- C7 counterexample: on the EVM path a quote reporting a price impact of
0.5 does not raise SlippageExceeded; mirror_buy proceeds to sign and
submit and returns the quoted price, because exec/eth.py never consults
the price impact. -/
theorem C7_evm_no_slippage_check :
    (evm_mirror_buy sampleEvent (1 / 2) (fun _ => sampleEvmQuote)
        (fun _ => true) 100 none).2 = Except.ok ("txhash", (7 : ℚ)) ∧
    sampleEvmQuote.priceImpactPct = 1 / 2 := by
  exact ⟨rfl, rfl⟩

/-- C7 amended: on the Solana-like path a quote whose price impact exceeds
0.40 makes mirror_buy fail with SlippageExceeded before any signing or
bundle submission (the attempt list is empty, and the execution module
never touches the position book); the EVM path performs no price-impact
check and can never fail with SlippageExceeded. -/
theorem C7_amended_slippage :
    (∀ (e : TradeEvent) (r : ℚ) (d : ℕ) (gq : ℤ → SolQuote)
        (swap : SolSwapData) (ok : ℕ → Bool),
      (gq (sol_buy_amount e r d)).priceImpactPct > 2 / 5 →
      sol_mirror_buy e r d gq swap ok =
        ([], Except.error
          (ExecError.slippage (gq (sol_buy_amount e r d)).priceImpactPct))) ∧
    (∀ (e : TradeEvent) (r : ℚ) (gq : ℤ → EvmQuote) (ok : ℕ → Bool)
        (bn : ℕ) (bf : Option ℕ) (i : ℚ),
      (evm_mirror_buy e r gq ok bn bf).2 ≠
        Except.error (ExecError.slippage i)) := by
  constructor
  · intro e r d gq swap ok himp
    simp [sol_mirror_buy, himp]
  · intro e r gq ok bn bf i
    cases h0 : ok 0 <;> cases h1 : ok 1 <;>
      simp [evm_mirror_buy, send_bundle, h0, h1]

/-- C7 amended witness: a Solana-like quote with price impact 0.5 makes
mirror_buy return the SlippageExceeded failure with no submission
attempts. -/
theorem C7_amended_witness :
    sol_mirror_buy sampleEvent 1 0 (fun _ => ⟨1 / 2⟩) ⟨0, 1⟩
        (fun _ => true) =
      ([], Except.error (ExecError.slippage (1 / 2))) := by
  exact C7_amended_slippage.1 sampleEvent 1 0 (fun _ => ⟨1 / 2⟩) ⟨0, 1⟩
    (fun _ => true) (by norm_num)

/-- C8 counterexample: a Solana-like mirror_sell of a position of size 5
with one token decimal submits amount 50, not floor(size) = 5, because it
delegates to mirror_buy with ratio 1 and the decimals scaling is applied
again. -/
theorem C8_sol_sell_scaling_counterexample :
    sol_sell_amount samplePosition 1 = 50 ∧
    ⌊samplePosition.size⌋ = 5 ∧ (50 : ℤ) ≠ 5 := by
  refine ⟨?_, ?_, by norm_num⟩ <;>
    norm_num [sol_sell_amount, sol_buy_amount, sol_mirror_sell_event,
      samplePosition, pyInt]

/-- C8 amended: the submitted sell amounts are floor(e.amount_in * r) for
EVM buys, floor(p.size) for EVM sells, floor(e.amount_in * r * 10 ^ d)
for Solana-like buys, and floor(p.size * 10 ^ d) for Solana-like sells:
on the Solana-like chain the token-decimals scaling is applied to sells
as well as buys, since mirror_sell delegates to mirror_buy with ratio 1
and amount_in = p.size. -/
theorem C8_amended_amounts (e : TradeEvent) (p : Position) (r : ℚ) (d : ℕ)
    (h1 : 0 ≤ e.amount_in * r) (h2 : 0 ≤ p.size) :
    evm_buy_sell_amount e r = ⌊e.amount_in * r⌋ ∧
    evm_sell_sell_amount p = ⌊p.size⌋ ∧
    sol_buy_amount e r d = ⌊e.amount_in * r * (10 : ℚ) ^ d⌋ ∧
    sol_sell_amount p d = ⌊p.size * (10 : ℚ) ^ d⌋ := by
  have hpow : (0 : ℚ) ≤ (10 : ℚ) ^ d := by positivity
  refine ⟨?_, ?_, ?_, ?_⟩
  · simp [evm_buy_sell_amount, pyInt, h1]
  · simp [evm_sell_sell_amount, pyInt, h2]
  · simp [sol_buy_amount, pyInt, mul_nonneg h1 hpow]
  · have h3 : 0 ≤ p.size * (10 : ℚ) ^ d := mul_nonneg h2 hpow
    simp [sol_sell_amount, sol_buy_amount, sol_mirror_sell_event, pyInt, h3]

/-- C8 amended witness: with amount_in 100, ratio one half and two
decimals, the EVM buy amount is 50, the EVM sell amount for size 5 is 5,
the Solana-like buy amount is 5000 and the Solana-like sell amount is
500. -/
theorem C8_amended_witness :
    evm_buy_sell_amount sampleEvent (1 / 2) = 50 ∧
    evm_sell_sell_amount samplePosition = 5 ∧
    sol_buy_amount sampleEvent (1 / 2) 2 = 5000 ∧
    sol_sell_amount samplePosition 2 = 500 := by
  obtain ⟨ha, hb, hc, hd⟩ :=
    C8_amended_amounts sampleEvent samplePosition (1 / 2) 2
      (by norm_num [sampleEvent]) (by norm_num [samplePosition])
  refine ⟨?_, ?_, ?_, ?_⟩
  · rw [ha]; norm_num [sampleEvent]
  · rw [hb]; norm_num [samplePosition]
  · rw [hc]; norm_num [sampleEvent]
  · rw [hd]; norm_num [samplePosition]

/-- Running a feed loop over concatenated outcome lists composes: the
sleeps concatenate and the backoff threads through. -/
theorem runFeed_append (stp : ℕ → FeedOutcome → Option ℕ × ℕ)
    (os1 os2 : List FeedOutcome) (b : ℕ) :
    runFeed stp (os1 ++ os2) b =
      ((runFeed stp os1 b).1 ++
          (runFeed stp os2 (runFeed stp os1 b).2).1,
        (runFeed stp os2 (runFeed stp os1 b).2).2) := by
  induction os1 generalizing b with
  | nil => simp [runFeed]
  | cons o rest ih =>
    simp only [List.cons_append, runFeed]
    cases h : (stp b o).1 <;> simp [h, ih]

/-- Starting from a backoff of the form min (2 ^ k) 30, a run of n
consecutive pre-subscription failures leaves backoff min (2 ^ (k + n)) 30:
the backoff doubles per failure and caps at 30. -/
theorem helius_fail_backoff (n k : ℕ) :
    (runFeed subscribe_helius_step
        (List.replicate n FeedOutcome.failBeforeSub) (min (2 ^ k) 30)).2 =
      min (2 ^ (k + n)) 30 := by
  induction n generalizing k with
  | zero => simp [runFeed]
  | succ n ih =>
    rw [List.replicate_succ]
    simp only [runFeed, subscribe_helius_step]
    have hmin : ∀ x : ℕ, min (min x 30 * 2) 30 = min (x * 2) 30 := by
      intro x
      omega
    rw [hmin (2 ^ k), ← pow_succ, ih (k + 1)]
    have : k + 1 + n = k + (n + 1) := by omega
    rw [this]

/-- C9 counterexample: the EVM subscriber of ingestion/eth.py, on a failed
connection, performs no backoff sleep and makes no second connection
attempt; it merely closes its redis client and returns, contradicting the
claim that every feed subscriber sleeps and reconnects on failure. -/
theorem C9_eth_no_reconnect :
    subscribe_and_process_trace false =
      [EthAction.connect, EthAction.closeRedis] ∧
    EthAction.sleepBackoff ∉ subscribe_and_process_trace false ∧
    (subscribe_and_process_trace false).count EthAction.connect = 1 := by
  refine ⟨rfl, by decide, by decide⟩

/-- C9 amended: the two Solana-like subscribers back off as the claim
states. After n consecutive connection failures the carried backoff is
min (2 ^ n) 30, so it starts at 1, doubles per consecutive failure and
caps at 30 seconds; the sleep performed on the (n + 1)-st consecutive
failure is min (2 ^ n) 30; a failure following a successful subscription
sleeps 1 second and carries backoff 2, since the subscription reset the
backoff to 1; the jito subscriber behaves identically to the helius one.
The EVM subscriber, however, makes a single connection attempt and on
failure returns without sleeping or reconnecting. -/
theorem C9_amended_backoff :
    (∀ n, (subscribe_helius_run
        (List.replicate n FeedOutcome.failBeforeSub)).2 = min (2 ^ n) 30) ∧
    (∀ n, (subscribe_helius_run
          (List.replicate (n + 1) FeedOutcome.failBeforeSub)).1 =
        (subscribe_helius_run
          (List.replicate n FeedOutcome.failBeforeSub)).1 ++
          [min (2 ^ n) 30]) ∧
    (∀ pre, subscribe_helius_run (pre ++ [FeedOutcome.failAfterSub]) =
        ((subscribe_helius_run pre).1 ++ [1], 2)) ∧
    (∀ os, subscribe_jito_run os = subscribe_helius_run os) ∧
    subscribe_and_process_trace false =
      [EthAction.connect, EthAction.closeRedis] := by
  have hone : ∀ n, (runFeed subscribe_helius_step
      (List.replicate n FeedOutcome.failBeforeSub) 1).2 = min (2 ^ n) 30 := by
    intro n
    have h := helius_fail_backoff n 0
    norm_num at h
    exact h
  refine ⟨?_, ?_, ?_, ?_, rfl⟩
  · intro n
    exact hone n
  · intro n
    simp only [subscribe_helius_run, List.replicate_succ']
    rw [runFeed_append]
    simp [runFeed, subscribe_helius_step, hone n]
  · intro pre
    simp only [subscribe_helius_run]
    rw [runFeed_append]
    have h2 : min (1 * 2) 30 = 2 := by norm_num
    simp [runFeed, subscribe_helius_step, h2]
  · intro os
    rfl
